import Mathlib

/-!
Shallow embedding of `src/Revive/CompositorBase.cpp` (the Revive compositor
core).  Floating-point arithmetic is modelled over `ℚ`; machine pointers to
swapchains become chain identifiers into an explicit store; calls into the
external OpenVR runtime become events in a trace, with the per-eye
`IVRCompositor::Submit` results supplied by an environment oracle.
-/

namespace Revive

/-- OpenVR compositor error codes (`vr::EVRCompositorError`), restricted to the
values handled by `rev_CompositorErrorToOvrError`. -/
inductive EVRCompositorError where
  | noErr
  | incompatibleVersion
  | doNotHaveFocus
  | invalidTexture
  | isNotSceneApplication
  | textureIsOnWrongDevice
  | textureUsesUnsupportedFormat
  | sharedTexturesNotSupported
  | indexOutOfRange
  | alreadySubmitted
  | invalidBounds
  | requestFailed
  deriving DecidableEq, Repr

/-- Oculus SDK result codes (`ovrResult`), restricted to the values produced by
this translation unit. -/
inductive OvrResult where
  | success
  | successNotVisible
  | errorServiceError
  | errorTextureSwapChainInvalid
  | errorInvalidSession
  | errorInvalidParameter
  | errorRuntimeException
  deriving DecidableEq, Repr

/-- `rev_CompositorErrorToOvrError` (CompositorBase.cpp:22). -/
def rev_CompositorErrorToOvrError : EVRCompositorError → OvrResult
  | .noErr => .success
  | .incompatibleVersion => .errorServiceError
  | .doNotHaveFocus => .successNotVisible
  | .invalidTexture => .errorTextureSwapChainInvalid
  | .isNotSceneApplication => .errorInvalidSession
  | .textureIsOnWrongDevice => .errorTextureSwapChainInvalid
  | .textureUsesUnsupportedFormat => .errorTextureSwapChainInvalid
  | .sharedTexturesNotSupported => .errorTextureSwapChainInvalid
  | .indexOutOfRange => .errorInvalidParameter
  | .alreadySubmitted => .successNotVisible
  | .invalidBounds => .errorInvalidParameter
  | .requestFailed => .errorRuntimeException

/-- Graphics API of the active backend (`vr::ETextureType`), as returned by the
virtual `GetAPI()`. -/
inductive TextureType where
  | DirectX
  | OpenGL
  | Vulkan
  deriving DecidableEq, Repr

/-- Tracking universe origin (`vr::ETrackingUniverseOrigin`). -/
inductive TrackingUniverse where
  | seated
  | standing
  | rawAndUncalibrated
  deriving DecidableEq, Repr

/-- `ovrFovPort`: four independent half-angle tangents. -/
structure ovrFovPort where
  UpTan : ℚ
  DownTan : ℚ
  LeftTan : ℚ
  RightTan : ℚ
  deriving DecidableEq, Repr

/-- `ovrRecti`: integer viewport rectangle (`Pos`, `Size`). -/
structure ovrRecti where
  PosX : Int
  PosY : Int
  SizeW : Int
  SizeH : Int
  deriving DecidableEq, Repr

/-- `vr::VRTextureBounds_t`: normalized texture sub-rectangle. -/
structure VRTextureBounds where
  uMin : ℚ
  vMin : ℚ
  uMax : ℚ
  vMax : ℚ
  deriving DecidableEq, Repr

/-- The two layer-header flags this translation unit inspects
(`ovrLayerFlag_TextureOriginAtBottomLeft` and `ovrLayerFlag_HeadLocked`). -/
structure LayerFlags where
  textureOriginAtBottomLeft : Bool
  headLocked : Bool
  deriving DecidableEq, Repr

/-- Identifies a heap-allocated `ovrTextureSwapChainData` object (a pointer in
the source); pointer equality becomes equality of identifiers. -/
abbrev ChainId := Nat

/-- Render poses are threaded through unchanged; they are modelled opaquely. -/
abbrev Pose := Nat

/-- `ovrTextureSwapChainData`: the per-swapchain state this translation unit
reads and writes (descriptor dimensions, ring length, submit cursor, and the
lazily assigned overlay handle, `vr::k_ulOverlayHandleInvalid` = `none`). -/
structure ovrTextureSwapChainData where
  Identifier : Nat
  Length : Nat
  SubmitIndex : Nat
  Overlay : Option Nat
  Width : Int
  Height : Int
  deriving DecidableEq, Repr

/-- Modelled from the spec: `ovrTextureSwapChainData::Submit` lives in a header
that is not part of the sources; per spec §4.1 it advances the write cursor
`(submitIndex + 1) mod length`. -/
def chainSubmit (c : ovrTextureSwapChainData) : ovrTextureSwapChainData :=
  { c with SubmitIndex := (c.SubmitIndex + 1) % c.Length }

/-- `CompositorBase::ViewportToTextureBounds` (CompositorBase.cpp:240).
`api` is the value of the virtual `GetAPI()`. -/
def ViewportToTextureBounds (viewport : ovrRecti) (swapChain : ovrTextureSwapChainData)
    (flags : LayerFlags) (api : TextureType) : VRTextureBounds :=
  let w : ℚ := (swapChain.Width : ℚ)
  let h : ℚ := (swapChain.Height : ℚ)
  let uMin : ℚ := (viewport.PosX : ℚ) / w
  let vMin : ℚ := (viewport.PosY : ℚ) / h
  let uMax : ℚ := if 0 < viewport.SizeW ∧ 0 < viewport.SizeH then
      ((viewport.PosX + viewport.SizeW : Int) : ℚ) / w else 1
  let vMax : ℚ := if 0 < viewport.SizeW ∧ 0 < viewport.SizeH then
      ((viewport.PosY + viewport.SizeH : Int) : ℚ) / h else 1
  let b1 : VRTextureBounds := ⟨uMin, vMin, uMax, vMax⟩
  let b2 : VRTextureBounds := if flags.textureOriginAtBottomLeft then
      { b1 with vMin := 1 - b1.vMin, vMax := 1 - b1.vMax } else b1
  if api = TextureType.OpenGL then
      { b2 with vMin := 1 - b2.vMin, vMax := 1 - b2.vMax } else b2

/-- The v-axis flip `v ↦ 1 - v` applied to both `vMin` and `vMax`, as performed
by `ViewportToTextureBounds` for the `TextureOriginAtBottomLeft` flag and again
for the OpenGL backend (CompositorBase.cpp:261 and 267). -/
def flipVBounds (b : VRTextureBounds) : VRTextureBounds :=
  { b with vMin := 1 - b.vMin, vMax := 1 - b.vMax }

/-- `CompositorBase::FovPortToTextureBounds` (CompositorBase.cpp:403). -/
def FovPortToTextureBounds (eyeFov fov : ovrFovPort) : VRTextureBounds :=
  { uMin := 1/2 - 1/2 * eyeFov.LeftTan / fov.LeftTan
    uMax := 1/2 + 1/2 * eyeFov.RightTan / fov.RightTan
    vMin := 1/2 - 1/2 * eyeFov.UpTan / fov.UpTan
    vMax := 1/2 + 1/2 * eyeFov.DownTan / fov.DownTan }

/-- `ovrLayerQuad`: a flat overlay layer.  `ColorTexture` is dereferenced
without a null check in the source, so it is a mandatory chain reference. -/
structure ovrLayerQuad where
  Flags : LayerFlags
  ColorTexture : ChainId
  QuadPoseCenter : Pose
  QuadSizeX : ℚ
  Viewport : ovrRecti
  deriving DecidableEq, Repr

/-- `ovrLayerEyeFov`: a stereo eye-view layer.  The left color texture is
dereferenced unconditionally; the right one may be null (mono content). -/
structure ovrLayerEyeFov where
  Flags : LayerFlags
  ColorTextureLeft : ChainId
  ColorTextureRight : Option ChainId
  ViewportLeft : ovrRecti
  ViewportRight : ovrRecti
  FovLeft : ovrFovPort
  FovRight : ovrFovPort
  RenderPoseLeft : Pose
  RenderPoseRight : Pose
  SensorSampleTime : ℚ
  deriving DecidableEq, Repr

/-- Per-eye field access on an `ovrLayerEyeFov` (index 0 = `ovrEye_Left`). -/
def ovrLayerEyeFov.Viewport (l : ovrLayerEyeFov) : Fin 2 → ovrRecti
  | 0 => l.ViewportLeft
  | 1 => l.ViewportRight

def ovrLayerEyeFov.Fov (l : ovrLayerEyeFov) : Fin 2 → ovrFovPort
  | 0 => l.FovLeft
  | 1 => l.FovRight

def ovrLayerEyeFov.RenderPose (l : ovrLayerEyeFov) : Fin 2 → Pose
  | 0 => l.RenderPoseLeft
  | 1 => l.RenderPoseRight

/-- `ovrLayerEyeMatrix`: like `ovrLayerEyeFov` but with projection-matrix
entries instead of FOV tangents.  Only `M[0][0]` and `M[1][1]` are read. -/
structure ovrLayerEyeMatrix where
  Flags : LayerFlags
  ColorTextureLeft : ChainId
  ColorTextureRight : Option ChainId
  ViewportLeft : ovrRecti
  ViewportRight : ovrRecti
  M00Left : ℚ
  M00Right : ℚ
  M11Left : ℚ
  M11Right : ℚ
  RenderPoseLeft : Pose
  RenderPoseRight : Pose
  SensorSampleTime : ℚ
  deriving DecidableEq, Repr

/-- The layer union as dispatched on `ovrLayerHeader::Type`
(CompositorBase.cpp:137, 180, 193).  Layer types the source does not handle
(e.g. `ovrLayerType_Disabled`, `Cylinder`, `Cube`) are `unhandled`. -/
inductive OvrLayer where
  | quad (q : ovrLayerQuad)
  | eyeFov (l : ovrLayerEyeFov)
  | eyeFovDepth (l : ovrLayerEyeFov)
  | eyeFovMultires (l : ovrLayerEyeFov)
  | eyeMatrix (m : ovrLayerEyeMatrix)
  | unhandled
  deriving DecidableEq, Repr

/-- `CompositorBase::ToFovLayer` (CompositorBase.cpp:276). -/
def ToFovLayer (m : ovrLayerEyeMatrix) : ovrLayerEyeFov :=
  { Flags := m.Flags
    ColorTextureLeft := m.ColorTextureLeft
    ColorTextureRight := m.ColorTextureRight
    ViewportLeft := m.ViewportLeft
    ViewportRight := m.ViewportRight
    FovLeft := { LeftTan := 1/2 / m.M00Left, RightTan := 1/2 / m.M00Left,
                 UpTan := -(1/2) / m.M11Left, DownTan := -(1/2) / m.M11Left }
    FovRight := { LeftTan := 1/2 / m.M00Right, RightTan := 1/2 / m.M00Right,
                  UpTan := -(1/2) / m.M11Right, DownTan := -(1/2) / m.M11Right }
    RenderPoseLeft := m.RenderPoseLeft
    RenderPoseRight := m.RenderPoseRight
    SensorSampleTime := m.SensorSampleTime }

/-- Per-session state read by this translation unit (`Session.h` fields). -/
structure SessionData where
  FrameIndex : Int
  TrackingOrigin : TrackingUniverse
  RenderDescFovLeft : ovrFovPort
  RenderDescFovRight : ovrFovPort
  deriving DecidableEq, Repr

def SessionData.RenderDescFov (s : SessionData) : Fin 2 → ovrFovPort
  | 0 => s.RenderDescFovLeft
  | 1 => s.RenderDescFovRight

/-- `CompositorBase` member state.  The swapchain heap is modelled as a total
map from chain identifiers to swapchain data. -/
structure CompositorState where
  api : TextureType
  m_MirrorTexture : Bool
  m_ChainCount : Nat
  m_OverlayCount : Nat
  m_ActiveOverlays : List Nat
  chains : ChainId → ovrTextureSwapChainData

/-- Update one swapchain in the heap. -/
def setChain (s : CompositorState) (c : ChainId) (d : ovrTextureSwapChainData) :
    CompositorState :=
  { s with chains := fun c' => if c' = c then d else s.chains c' }

/-- `chain->Submit()` on the heap. -/
def submitChain (s : CompositorState) (c : ChainId) : CompositorState :=
  setChain s c (chainSubmit (s.chains c))

/-- One call into an external OpenVR interface, recorded in order. -/
inductive VREvent where
  | flush
  | waitGetPoses
  | createOverlay (key : Nat) (handle : Nat)
  | setOverlayTexture (handle : Nat) (chain : ChainId) (texIndex : Nat)
  | setOverlaySortOrder (handle : Nat) (order : Nat)
  | setOverlayWidthInMeters (handle : Nat) (w : ℚ)
  | setOverlayTransformTrackedDeviceRelative (handle : Nat) (pose : Pose)
  | setOverlayTransformAbsolute (handle : Nat) (origin : TrackingUniverse) (pose : Pose)
  | setOverlayTextureBounds (handle : Nat) (b : VRTextureBounds)
  | showOverlay (handle : Nat)
  | hideOverlay (handle : Nat)
  | renderTextureSwapChain (eye : Fin 2) (src : ChainId) (dst : Option ChainId)
      (dstViewport : ovrRecti) (b : VRTextureBounds) (quad : ℚ × ℚ × ℚ × ℚ)
  | compositorSubmit (eye : Fin 2) (chain : ChainId) (texIndex : Nat)
      (b : VRTextureBounds) (pose : Pose)
  | renderMirrorTexture
  deriving DecidableEq, Repr

/-- Responses of the external runtime that the compositor's control flow
depends on: the per-eye `IVRCompositor::Submit` results, the per-call
`WaitGetPoses` results, and the seated-to-standing pose composition. -/
structure RuntimeEnv where
  submitResult : Fin 2 → EVRCompositorError
  waitResult : Nat → EVRCompositorError
  seatedCompose : Pose → Pose

/-- `CompositorBase::BlitFovLayers` (CompositorBase.cpp:294): composite each
eye of `srcLayer` into `dstLayer`'s render target, then advance both source
chains' submit cursors (once only for mono content). -/
def BlitFovLayers (s : CompositorState) (dstLayer srcLayer : ovrLayerEyeFov) :
    CompositorState × List VREvent :=
  let chainL := srcLayer.ColorTextureLeft
  let chainR := srcLayer.ColorTextureRight.getD chainL
  let chainOf : Fin 2 → ChainId := fun i => if i = 0 then chainL else chainR
  let dstOf : Fin 2 → Option ChainId := fun i =>
    if i = 0 then some dstLayer.ColorTextureLeft else dstLayer.ColorTextureRight
  let blitEv : Fin 2 → VREvent := fun i =>
    let sceneFov := dstLayer.Fov i
    let quad : ℚ × ℚ × ℚ × ℚ :=
      ((srcLayer.Fov i).LeftTan / -sceneFov.LeftTan,
       (srcLayer.Fov i).RightTan / sceneFov.RightTan,
       (srcLayer.Fov i).UpTan / sceneFov.UpTan,
       (srcLayer.Fov i).DownTan / -sceneFov.DownTan)
    let bounds := ViewportToTextureBounds (srcLayer.Viewport i) (s.chains (chainOf i))
      srcLayer.Flags s.api
    VREvent.renderTextureSwapChain i (chainOf i) (dstOf i) (dstLayer.Viewport i) bounds quad
  let s1 := submitChain s chainL
  let s2 := if chainL ≠ chainR then submitChain s1 chainR else s1
  (s2, [blitEv 0, blitEv 1])

/-- The combined per-eye texture bounds of `CompositorBase::SubmitFovLayer`
(CompositorBase.cpp:358): viewport bounds composed with the FOV-ratio bounds
against the session's per-eye render descriptor. -/
def submitEyeBounds (s : CompositorState) (sess : SessionData)
    (fovLayer : ovrLayerEyeFov) (i : Fin 2) (chain : ChainId) : VRTextureBounds :=
  let bounds := ViewportToTextureBounds (fovLayer.Viewport i) (s.chains chain)
    fovLayer.Flags s.api
  let fovBounds := FovPortToTextureBounds (sess.RenderDescFov i) (fovLayer.Fov i)
  { uMin := bounds.uMin + fovBounds.uMin * bounds.uMax
    uMax := bounds.uMax * fovBounds.uMax
    vMin := bounds.vMin + fovBounds.vMin * bounds.vMax
    vMax := bounds.vMax * fovBounds.vMax }

/-- The pose attached to an eye texture by `SubmitFovLayer`
(CompositorBase.cpp:375): composed with the seated-to-standing offset when the
tracking origin is seated. -/
def submitEyePose (env : RuntimeEnv) (sess : SessionData) (fovLayer : ovrLayerEyeFov)
    (i : Fin 2) : Pose :=
  if sess.TrackingOrigin = TrackingUniverse.seated then
    env.seatedCompose (fovLayer.RenderPose i)
  else fovLayer.RenderPose i

/-- `CompositorBase::SubmitFovLayer` (CompositorBase.cpp:335): submit each eye
to the runtime compositor, breaking out of the loop at the first error, then
advance both chains' submit cursors (once only for mono content). -/
def SubmitFovLayer (env : RuntimeEnv) (s : CompositorState) (sess : SessionData)
    (fovLayer : ovrLayerEyeFov) : EVRCompositorError × CompositorState × List VREvent :=
  let chainL := fovLayer.ColorTextureLeft
  let chainR := fovLayer.ColorTextureRight.getD chainL
  let chainOf : Fin 2 → ChainId := fun i => if i = 0 then chainL else chainR
  let submitEv : Fin 2 → VREvent := fun i =>
    VREvent.compositorSubmit i (chainOf i) ((s.chains (chainOf i)).SubmitIndex)
      (submitEyeBounds s sess fovLayer i (chainOf i)) (submitEyePose env sess fovLayer i)
  let r : EVRCompositorError × List VREvent :=
    if env.submitResult 0 ≠ EVRCompositorError.noErr then
      (env.submitResult 0, [submitEv 0])
    else
      (env.submitResult 1, [submitEv 0, submitEv 1])
  let s1 := submitChain s chainL
  let s2 := if chainL ≠ chainR then submitChain s1 chainR else s1
  (r.1, s2, r.2)

/-- One iteration of the layer loop in `CompositorBase::EndFrame`
(CompositorBase.cpp:131): dispatch on the layer type, returning the updated
compositor state, base layer, active-overlay list, and the new events. -/
def processLayer (s : CompositorState) (sess : SessionData)
    (base : Option ovrLayerEyeFov) (active : List Nat) (i : Nat) :
    OvrLayer → CompositorState × Option ovrLayerEyeFov × List Nat × List VREvent
  | .quad q =>
    let chain := q.ColorTexture
    let r1 : CompositorState × Nat × List VREvent :=
      match (s.chains chain).Overlay with
      | some h => (s, h, [])
      | none =>
        let h := s.m_OverlayCount
        let s' := { setChain s chain { s.chains chain with Overlay := some h } with
                    m_OverlayCount := s.m_OverlayCount + 1 }
        (s', h, [VREvent.createOverlay s.m_OverlayCount h,
                 VREvent.setOverlayTexture h chain (s.chains chain).SubmitIndex])
    let s1 := r1.1
    let overlay := r1.2.1
    let bounds := ViewportToTextureBounds q.Viewport (s1.chains chain) q.Flags s1.api
    let evs2 := [VREvent.setOverlaySortOrder overlay i,
                 VREvent.setOverlayWidthInMeters overlay q.QuadSizeX,
                 if q.Flags.headLocked then
                   VREvent.setOverlayTransformTrackedDeviceRelative overlay q.QuadPoseCenter
                 else
                   VREvent.setOverlayTransformAbsolute overlay sess.TrackingOrigin q.QuadPoseCenter,
                 VREvent.setOverlayTextureBounds overlay bounds,
                 VREvent.showOverlay overlay]
    (submitChain s1 chain, base, active ++ [overlay], r1.2.2 ++ evs2)
  | .eyeFov l =>
    (match base with
     | none => (s, some l, active, [])
     | some b => let r := BlitFovLayers s b l; (r.1, some b, active, r.2))
  | .eyeFovDepth l =>
    (match base with
     | none => (s, some l, active, [])
     | some b => let r := BlitFovLayers s b l; (r.1, some b, active, r.2))
  | .eyeFovMultires l =>
    (match base with
     | none => (s, some l, active, [])
     | some b => let r := BlitFovLayers s b l; (r.1, some b, active, r.2))
  | .eyeMatrix m =>
    let l := ToFovLayer m
    (match base with
     | none => (s, some l, active, [])
     | some b => let r := BlitFovLayers s b l; (r.1, some b, active, r.2))
  | .unhandled => (s, base, active, [])

/-- The full layer loop of `CompositorBase::EndFrame` (CompositorBase.cpp:131):
null entries are skipped but still advance the loop index `i`. -/
def processLayers (s : CompositorState) (sess : SessionData)
    (base : Option ovrLayerEyeFov) (active : List Nat) (i : Nat) :
    List (Option OvrLayer) → CompositorState × Option ovrLayerEyeFov × List Nat × List VREvent
  | [] => (s, base, active, [])
  | none :: rest => processLayers s sess base active (i + 1) rest
  | some lay :: rest =>
    let r := processLayer s sess base active i lay
    let r' := processLayers r.1 sess r.2.1 r.2.2.1 (i + 1) rest
    (r'.1, r'.2.1, r'.2.2.1, r.2.2.2 ++ r'.2.2.2)

/-- `CompositorBase::EndFrame` (CompositorBase.cpp:118).  The layer-pointer
array is `none` when null; otherwise a list of (possibly null) layer pointers
whose length is `layerCount`.  Returns the result code, the new compositor
state, and the trace of runtime calls. -/
def EndFrame (env : RuntimeEnv) (s : CompositorState) (sess : SessionData)
    (layerPtrList : Option (List (Option OvrLayer))) :
    OvrResult × CompositorState × List VREvent :=
  match layerPtrList with
  | none => (.errorInvalidParameter, s, [])
  | some layers =>
    if layers.length = 0 then (.errorInvalidParameter, s, [])
    else
      let r := processLayers s sess none [] 0 layers
      let s1 := r.1
      let base := r.2.1
      let active := r.2.2.1
      let evs1 := r.2.2.2
      let hides := (s.m_ActiveOverlays.filter fun h => ¬ active.contains h).map
        VREvent.hideOverlay
      let s2 := { s1 with m_ActiveOverlays := active }
      match base with
      | none =>
        let evsMirror := if s2.m_MirrorTexture then [VREvent.renderMirrorTexture] else []
        (rev_CompositorErrorToOvrError .noErr, s2,
          VREvent.flush :: (evs1 ++ hides ++ evsMirror))
      | some b =>
        let rs := SubmitFovLayer env s2 sess b
        let err := rs.1
        let s3 := rs.2.1
        let evsMirror := if s3.m_MirrorTexture ∧ err = EVRCompositorError.noErr then
            [VREvent.renderMirrorTexture] else []
        (rev_CompositorErrorToOvrError err, s3,
          VREvent.flush :: (evs1 ++ hides ++ rs.2.2 ++ evsMirror))

/-- The wait loop of `CompositorBase::WaitToBeginFrame` (CompositorBase.cpp:102):
`n` remaining iterations, `k` calls already made, `err` the last result. -/
def waitLoop (env : RuntimeEnv) (err : EVRCompositorError) (k : Nat) :
    Nat → EVRCompositorError × List VREvent
  | 0 => (err, [])
  | n + 1 =>
    let r := waitLoop env (env.waitResult k) (k + 1) n
    (r.1, VREvent.waitGetPoses :: r.2)

/-- `CompositorBase::WaitToBeginFrame` (CompositorBase.cpp:97): call
`WaitGetPoses` once per frame index between the session's current index and
the target, and convert the last error. -/
def WaitToBeginFrame (env : RuntimeEnv) (sess : SessionData) (frameIndex : Int) :
    OvrResult × List VREvent :=
  let n := (frameIndex - sess.FrameIndex).toNat
  let r := waitLoop env .noErr 0 n
  (rev_CompositorErrorToOvrError r.1, r.2)

/-- `CompositorBase::BeginFrame` (CompositorBase.cpp:110). -/
def BeginFrame (sess : SessionData) (frameIndex : Int) : OvrResult × SessionData :=
  (.success, { sess with FrameIndex := frameIndex })

/-- `ovrTextureSwapChainDesc`: the descriptor fields this translation unit
observes (texture format and bind flags are forwarded opaquely). -/
structure ovrTextureSwapChainDesc where
  Width : Int
  Height : Int
  Length : Nat
  deriving DecidableEq, Repr

/-- `CompositorBase::CreateTextureSwapChain` (CompositorBase.cpp:54).
`texInitOk i` is whether the backend texture `Init` for ring slot `i`
succeeds; on the first failure the function aborts with a runtime error, but
`m_ChainCount` has already been incremented.  A fresh chain starts with its
cursor at 0 and no overlay handle. -/
def CreateTextureSwapChain (s : CompositorState) (desc : ovrTextureSwapChainDesc)
    (texInitOk : Nat → Bool) : CompositorState × Except OvrResult ovrTextureSwapChainData :=
  let ident := s.m_ChainCount
  let s1 := { s with m_ChainCount := s.m_ChainCount + 1 }
  let len := if s.api = TextureType.OpenGL then 1 else desc.Length
  let chain : ovrTextureSwapChainData :=
    { Identifier := ident, Length := len, SubmitIndex := 0, Overlay := none,
      Width := desc.Width, Height := desc.Height }
  (s1, if (List.range len).all texInitOk then .ok chain
       else .error .errorRuntimeException)

/-- A sequence of `CreateTextureSwapChain` calls, collecting the successfully
created chains in order. -/
def runCreates (s : CompositorState) :
    List (ovrTextureSwapChainDesc × (Nat → Bool)) →
      CompositorState × List ovrTextureSwapChainData
  | [] => (s, [])
  | (desc, ok) :: rest =>
    let r := CreateTextureSwapChain s desc ok
    let r' := runCreates r.1 rest
    match r.2 with
    | .ok c => (r'.1, c :: r'.2)
    | .error _ => (r'.1, r'.2)

/-! Trace observations used in the theorem statements. -/

/-- Number of events in a trace satisfying `p`. -/
def countEvents (p : VREvent → Bool) (t : List VREvent) : Nat := (t.filter p).length

/-- Is this event an `IVRCompositor::Submit` for eye `i`? -/
def isCompositorSubmit (i : Fin 2) : VREvent → Bool
  | .compositorSubmit j _ _ _ _ => decide (j = i)
  | _ => false

/-- Is this event a blit (`RenderTextureSwapChain`)? -/
def isBlit : VREvent → Bool
  | .renderTextureSwapChain _ _ _ _ _ _ => true
  | _ => false

def isCreateOverlay : VREvent → Bool
  | .createOverlay _ _ => true
  | _ => false

def isSetOverlayTexture : VREvent → Bool
  | .setOverlayTexture _ _ _ => true
  | _ => false

def isShowOverlay : VREvent → Bool
  | .showOverlay _ => true
  | _ => false

def isSetOverlaySortOrder : VREvent → Bool
  | .setOverlaySortOrder _ _ => true
  | _ => false

def isSetOverlayWidth : VREvent → Bool
  | .setOverlayWidthInMeters _ _ => true
  | _ => false

def isSetOverlayTransform : VREvent → Bool
  | .setOverlayTransformTrackedDeviceRelative _ _ => true
  | .setOverlayTransformAbsolute _ _ _ => true
  | _ => false

def isSetOverlayTextureBounds : VREvent → Bool
  | .setOverlayTextureBounds _ _ => true
  | _ => false

def isRenderMirror : VREvent → Bool
  | .renderMirrorTexture => true
  | _ => false

def isWaitGetPoses : VREvent → Bool
  | .waitGetPoses => true
  | _ => false

/-- Layers handled by the eye-view branches of the `EndFrame` loop. -/
def isEyeLayer : OvrLayer → Bool
  | .eyeFov _ => true
  | .eyeFovDepth _ => true
  | .eyeFovMultires _ => true
  | .eyeMatrix _ => true
  | _ => false

/-- Layers handled by the quad branch of the `EndFrame` loop. -/
def isQuadLayer : OvrLayer → Bool
  | .quad _ => true
  | _ => false

/-- The eye-view content of a layer, after `ToFovLayer` conversion for
matrix layers. -/
def layerAsFov : OvrLayer → Option ovrLayerEyeFov
  | .eyeFov l => some l
  | .eyeFovDepth l => some l
  | .eyeFovMultires l => some l
  | .eyeMatrix m => some (ToFovLayer m)
  | _ => none

/-- Number of non-null eye-view layers in a submission list. -/
def eyeLayerCount (layers : List (Option OvrLayer)) : Nat :=
  (layers.filter fun l => match l with | some lay => isEyeLayer lay | none => false).length

/-- Number of non-null quad layers in a submission list. -/
def quadLayerCount (layers : List (Option OvrLayer)) : Nat :=
  (layers.filter fun l => match l with | some lay => isQuadLayer lay | none => false).length

/-- The first non-null eye-view layer of a submission list (the one `EndFrame`
keeps as the base layer). -/
def firstFovLayer : List (Option OvrLayer) → Option ovrLayerEyeFov
  | [] => none
  | none :: rest => firstFovLayer rest
  | some lay :: rest =>
    match layerAsFov lay with
    | some l => some l
    | none => firstFovLayer rest

/-- The compositor error recorded by a frame's base-layer submission: the
left eye's result and, only when the left eye succeeded, the right eye's. -/
def frameSubmitError (env : RuntimeEnv) : EVRCompositorError :=
  if env.submitResult 0 ≠ EVRCompositorError.noErr then env.submitResult 0
  else env.submitResult 1

/-! ## Theorems -/

/-- Claim C2: `EndFrame` called with `layerCount = 0` or a null layer-pointer
array returns `InvalidParameter` and performs no side effects: the compositor
state (including the tracked active-overlay set) is returned unchanged and the
trace of runtime calls is empty (no flush, no overlay work, no submission). -/
theorem endFrame_empty_or_null_is_invalidParameter (env : RuntimeEnv)
    (s : CompositorState) (sess : SessionData) :
    EndFrame env s sess none = (OvrResult.errorInvalidParameter, s, []) ∧
    EndFrame env s sess (some []) = (OvrResult.errorInvalidParameter, s, []) :=
  ⟨rfl, rfl⟩

/-- Claim C6: `FovPortToTextureBounds fov fov` with four non-zero tangents is
exactly the unit rect: `uMin = 0`, `vMin = 0`, `uMax = 1`, `vMax = 1`. -/
theorem fovPortToTextureBounds_self_is_unit (fov : ovrFovPort)
    (h : fov.UpTan ≠ 0 ∧ fov.DownTan ≠ 0 ∧ fov.LeftTan ≠ 0 ∧ fov.RightTan ≠ 0) :
    FovPortToTextureBounds fov fov = ⟨0, 0, 1, 1⟩ := by
  obtain ⟨h1, h2, h3, h4⟩ := h
  have key : ∀ a : ℚ, a ≠ 0 → 1/2 * a / a = 1/2 := by
    intro a ha
    rw [mul_div_assoc, div_self ha, mul_one]
  simp only [FovPortToTextureBounds, VRTextureBounds.mk.injEq]
  rw [key _ h1, key _ h2, key _ h3, key _ h4]
  norm_num

/-- Witness for C6 at the symmetric FOV with all tangents 1. -/
theorem fovPortToTextureBounds_self_is_unit_witness :
    FovPortToTextureBounds ⟨1, 1, 1, 1⟩ ⟨1, 1, 1, 1⟩ = ⟨0, 0, 1, 1⟩ :=
  fovPortToTextureBounds_self_is_unit ⟨1, 1, 1, 1⟩
    ⟨by norm_num, by norm_num, by norm_num, by norm_num⟩

/-- Claim C7: the `TextureOriginAtBottomLeft` v-axis flip is an involution:
flipping twice returns the original rect, and consequently
`ViewportToTextureBounds` with the flag set on the OpenGL backend (two flips)
agrees with the flag clear on a backend without the origin quirk (no flip). -/
theorem flipVBounds_involutive (b : VRTextureBounds) (viewport : ovrRecti)
    (chain : ovrTextureSwapChainData) (hl : Bool) :
    flipVBounds (flipVBounds b) = b ∧
    ViewportToTextureBounds viewport chain ⟨true, hl⟩ TextureType.OpenGL =
      ViewportToTextureBounds viewport chain ⟨false, hl⟩ TextureType.DirectX := by
  constructor
  · simp [flipVBounds]
  · simp [ViewportToTextureBounds]

/-- Counterexample to claim C4: a zero-area viewport at position `(100, 0)` on
a 200×200 swapchain yields `uMin = 1/2`, not the full unit rect: `uMin` stays
position-dependent (and the u axis is never flipped by any backend). -/
theorem viewportBounds_zero_area_not_position_free :
    (ViewportToTextureBounds ⟨100, 0, 0, 0⟩ ⟨0, 2, 0, none, 200, 200⟩
      ⟨false, false⟩ TextureType.DirectX).uMin ≠ 0 := by
  have h : (TextureType.DirectX = TextureType.OpenGL) = False := by simp
  norm_num [ViewportToTextureBounds, h]

/-- Claim C4 (amended): for every viewport whose size has width ≤ 0 or
height ≤ 0 *and whose position is the origin*, `ViewportToTextureBounds`
yields the full unit rect `[0,1]×[0,1]` modulo the per-backend v-axis flips,
for every swapchain, flag combination and backend; with a non-origin position
the min edges stay at `x/W`, `y/H`. -/
theorem viewportBounds_zero_area_origin_is_unit (viewport : ovrRecti)
    (chain : ovrTextureSwapChainData) (flags : LayerFlags) (api : TextureType)
    (hsz : viewport.SizeW ≤ 0 ∨ viewport.SizeH ≤ 0)
    (hx : viewport.PosX = 0) (hy : viewport.PosY = 0) :
    ((ViewportToTextureBounds viewport chain flags api).uMin = 0 ∧
      (ViewportToTextureBounds viewport chain flags api).uMax = 1) ∧
    (((ViewportToTextureBounds viewport chain flags api).vMin = 0 ∧
       (ViewportToTextureBounds viewport chain flags api).vMax = 1) ∨
     ((ViewportToTextureBounds viewport chain flags api).vMin = 1 ∧
       (ViewportToTextureBounds viewport chain flags api).vMax = 0)) := by
  have hcond : ¬(0 < viewport.SizeW ∧ 0 < viewport.SizeH) := by omega
  simp only [ViewportToTextureBounds, hcond, if_false, hx, hy]
  norm_num
  split_ifs <;> norm_num

/-- Witness for C4 (amended) at the all-zero viewport on a 200×200 chain with
the bottom-left-origin flag on the OpenGL backend. -/
theorem viewportBounds_zero_area_origin_is_unit_witness :
    ((ViewportToTextureBounds ⟨0, 0, 0, 0⟩ ⟨0, 2, 0, none, 200, 200⟩
        ⟨true, false⟩ TextureType.OpenGL).uMin = 0 ∧
      (ViewportToTextureBounds ⟨0, 0, 0, 0⟩ ⟨0, 2, 0, none, 200, 200⟩
        ⟨true, false⟩ TextureType.OpenGL).uMax = 1) ∧
    (((ViewportToTextureBounds ⟨0, 0, 0, 0⟩ ⟨0, 2, 0, none, 200, 200⟩
        ⟨true, false⟩ TextureType.OpenGL).vMin = 0 ∧
       (ViewportToTextureBounds ⟨0, 0, 0, 0⟩ ⟨0, 2, 0, none, 200, 200⟩
        ⟨true, false⟩ TextureType.OpenGL).vMax = 1) ∨
     ((ViewportToTextureBounds ⟨0, 0, 0, 0⟩ ⟨0, 2, 0, none, 200, 200⟩
        ⟨true, false⟩ TextureType.OpenGL).vMin = 1 ∧
       (ViewportToTextureBounds ⟨0, 0, 0, 0⟩ ⟨0, 2, 0, none, 200, 200⟩
        ⟨true, false⟩ TextureType.OpenGL).vMax = 0)) :=
  viewportBounds_zero_area_origin_is_unit ⟨0, 0, 0, 0⟩ ⟨0, 2, 0, none, 200, 200⟩
    ⟨true, false⟩ TextureType.OpenGL (Or.inl (by decide)) rfl rfl

/-- Every event emitted by the wait loop is a `WaitGetPoses` call, one per
iteration. -/
theorem waitLoop_count (env : RuntimeEnv) :
    ∀ (n k : Nat) (err : EVRCompositorError),
      countEvents isWaitGetPoses (waitLoop env err k n).2 = n := by
  intro n
  induction n with
  | zero => intro k err; rfl
  | succ m ih =>
    intro k err
    simp only [waitLoop, countEvents, List.filter_cons]
    have := ih (k + 1) (env.waitResult k)
    simp only [countEvents] at this
    simp [isWaitGetPoses, this]

/-- The wait loop's final error is the initial one for zero iterations and the
last oracle response otherwise. -/
theorem waitLoop_err (env : RuntimeEnv) :
    ∀ (n k : Nat) (err : EVRCompositorError),
      (waitLoop env err k n).1 = if n = 0 then err else env.waitResult (k + n - 1) := by
  intro n
  induction n with
  | zero => intro k err; rfl
  | succ m ih =>
    intro k err
    simp only [waitLoop, ih (k + 1) (env.waitResult k)]
    cases m with
    | zero => simp
    | succ m' =>
      simp only [Nat.succ_ne_zero, if_false, Nat.add_eq_zero, and_false]
      congr 1
      omega

/-- Claim C9: `WaitToBeginFrame` with a target index at or below the session's
current frame index performs zero `WaitGetPoses` calls and returns success;
with a larger target it performs `targetIndex - frameIndex` calls and returns
the (converted) error of the last call. -/
theorem waitToBeginFrame_calls (env : RuntimeEnv) (sess : SessionData)
    (frameIndex : Int) :
    (frameIndex ≤ sess.FrameIndex →
      (WaitToBeginFrame env sess frameIndex).1 = OvrResult.success ∧
      countEvents isWaitGetPoses (WaitToBeginFrame env sess frameIndex).2 = 0) ∧
    (sess.FrameIndex < frameIndex →
      (WaitToBeginFrame env sess frameIndex).1 =
        rev_CompositorErrorToOvrError
          (env.waitResult ((frameIndex - sess.FrameIndex).toNat - 1)) ∧
      countEvents isWaitGetPoses (WaitToBeginFrame env sess frameIndex).2 =
        (frameIndex - sess.FrameIndex).toNat) := by
  constructor
  · intro h
    have hn : (frameIndex - sess.FrameIndex).toNat = 0 := by omega
    constructor
    · simp only [WaitToBeginFrame, hn, waitLoop_err]
      rfl
    · simp only [WaitToBeginFrame, hn, waitLoop_count]
  · intro h
    have hn : (frameIndex - sess.FrameIndex).toNat ≠ 0 := by omega
    constructor
    · simp only [WaitToBeginFrame, waitLoop_err, hn, if_false, Nat.zero_add]
    · simp only [WaitToBeginFrame, waitLoop_count]

/-- Witness for C9: from frame index 5 to target 7, two waits happen and the
last oracle error (an invalid texture) is returned converted; target 3 is a
no-wait success. -/
theorem waitToBeginFrame_calls_witness :
    ((WaitToBeginFrame ⟨fun _ => .noErr, fun _ => .invalidTexture, fun p => p⟩
        ⟨5, .standing, ⟨1, 1, 1, 1⟩, ⟨1, 1, 1, 1⟩⟩ 7).1 =
      OvrResult.errorTextureSwapChainInvalid ∧
     countEvents isWaitGetPoses
       (WaitToBeginFrame ⟨fun _ => .noErr, fun _ => .invalidTexture, fun p => p⟩
         ⟨5, .standing, ⟨1, 1, 1, 1⟩, ⟨1, 1, 1, 1⟩⟩ 7).2 = 2) ∧
    (WaitToBeginFrame ⟨fun _ => .noErr, fun _ => .invalidTexture, fun p => p⟩
        ⟨5, .standing, ⟨1, 1, 1, 1⟩, ⟨1, 1, 1, 1⟩⟩ 3).1 = OvrResult.success := by
  refine ⟨?_, ?_⟩
  · have h := (waitToBeginFrame_calls
      ⟨fun _ => .noErr, fun _ => .invalidTexture, fun p => p⟩
      ⟨5, .standing, ⟨1, 1, 1, 1⟩, ⟨1, 1, 1, 1⟩⟩ 7).2 (by norm_num)
    exact ⟨h.1, h.2⟩
  · exact ((waitToBeginFrame_calls
      ⟨fun _ => .noErr, fun _ => .invalidTexture, fun p => p⟩
      ⟨5, .standing, ⟨1, 1, 1, 1⟩, ⟨1, 1, 1, 1⟩⟩ 3).1 (by norm_num)).1

/-- Identifiers of chains created by a `runCreates` sequence are pairwise
strictly increasing, and all at least the starting chain count. -/
theorem runCreates_ids (reqs : List (ovrTextureSwapChainDesc × (Nat → Bool))) :
    ∀ (s : CompositorState),
      List.Pairwise (· < ·)
        ((runCreates s reqs).2.map ovrTextureSwapChainData.Identifier) ∧
      ∀ x ∈ (runCreates s reqs).2.map ovrTextureSwapChainData.Identifier,
        s.m_ChainCount ≤ x := by
  induction reqs with
  | nil => intro s; simp [runCreates]
  | cons req rest ih =>
    intro s
    obtain ⟨desc, ok⟩ := req
    obtain ⟨ihp, ihb⟩ := ih { s with m_ChainCount := s.m_ChainCount + 1 }
    simp only [runCreates, CreateTextureSwapChain]
    by_cases hok :
        (List.range (if s.api = TextureType.OpenGL then 1 else desc.Length)).all ok = true
    · -- all texture inits succeeded: the new chain is collected
      rw [if_pos hok]
      refine ⟨?_, ?_⟩
      · simp only [List.map_cons, List.pairwise_cons]
        exact ⟨fun x hx => Nat.lt_of_succ_le (ihb x hx), ihp⟩
      · intro x hx
        simp only [List.map_cons, List.mem_cons] at hx
        rcases hx with rfl | hx
        · exact Nat.le_refl _
        · exact Nat.le_of_succ_le (ihb x hx)
    · -- a texture init failed: nothing is collected, but the count advanced
      rw [if_neg hok]
      exact ⟨ihp, fun x hx => Nat.le_of_succ_le (ihb x hx)⟩

/-- Claim C10: every successful `CreateTextureSwapChain` call assigns the new
chain the current value of `m_ChainCount` (the count of chains allocated so
far, failed initializations included) and increments that count, so the
identifiers of the chains created across any call sequence are strictly
increasing, hence pairwise distinct. -/
theorem createTextureSwapChain_ids_increasing (s : CompositorState)
    (desc : ovrTextureSwapChainDesc) (ok : Nat → Bool)
    (reqs : List (ovrTextureSwapChainDesc × (Nat → Bool))) :
    (∀ c ∈ ((CreateTextureSwapChain s desc ok).2.toOption), c.Identifier = s.m_ChainCount) ∧
    (CreateTextureSwapChain s desc ok).1.m_ChainCount = s.m_ChainCount + 1 ∧
    List.Pairwise (· < ·)
      ((runCreates s reqs).2.map ovrTextureSwapChainData.Identifier) := by
  refine ⟨?_, ?_, (runCreates_ids reqs s).1⟩
  · intro c hc
    simp only [CreateTextureSwapChain] at hc
    split at hc <;> split at hc <;> simp_all [Except.toOption] <;>
      exact hc ▸ rfl
  · rfl

/-- Witness for C10: two successful creations then a failed one then another
success give identifiers `[0, 1, 3]`. -/
theorem createTextureSwapChain_ids_increasing_witness :
    (∀ c ∈ (CreateTextureSwapChain
        ⟨TextureType.DirectX, false, 0, 0, [], fun _ => ⟨0, 1, 0, none, 1, 1⟩⟩
        ⟨64, 64, 3⟩ (fun _ => true)).2.toOption, c.Identifier = 0) ∧
    (CreateTextureSwapChain
        ⟨TextureType.DirectX, false, 0, 0, [], fun _ => ⟨0, 1, 0, none, 1, 1⟩⟩
        ⟨64, 64, 3⟩ (fun _ => true)).1.m_ChainCount = 0 + 1 ∧
    List.Pairwise (· < ·)
      ((runCreates ⟨TextureType.DirectX, false, 0, 0, [], fun _ => ⟨0, 1, 0, none, 1, 1⟩⟩
        [(⟨64, 64, 3⟩, fun _ => true), (⟨64, 64, 2⟩, fun _ => true),
         (⟨64, 64, 2⟩, fun _ => false), (⟨64, 64, 2⟩, fun _ => true)]).2.map
        ovrTextureSwapChainData.Identifier) :=
  createTextureSwapChain_ids_increasing
    ⟨TextureType.DirectX, false, 0, 0, [], fun _ => ⟨0, 1, 0, none, 1, 1⟩⟩
    ⟨64, 64, 3⟩ (fun _ => true)
    [(⟨64, 64, 3⟩, fun _ => true), (⟨64, 64, 2⟩, fun _ => true),
     (⟨64, 64, 2⟩, fun _ => false), (⟨64, 64, 2⟩, fun _ => true)]

theorem setChain_same (s : CompositorState) (c : ChainId) (d : ovrTextureSwapChainData) :
    (setChain s c d).chains c = d := by
  simp [setChain]

theorem setChain_other (s : CompositorState) (c : ChainId) (d : ovrTextureSwapChainData)
    (c' : ChainId) (h : c' ≠ c) : (setChain s c d).chains c' = s.chains c' := by
  simp [setChain, h]

theorem submitChain_same (s : CompositorState) (c : ChainId) :
    (submitChain s c).chains c = chainSubmit (s.chains c) :=
  setChain_same s c _

theorem submitChain_other (s : CompositorState) (c c' : ChainId) (h : c' ≠ c) :
    (submitChain s c).chains c' = s.chains c' :=
  setChain_other s c _ c' h

/-- Claim C3: when the left eye's runtime `Submit` errors, `SubmitFovLayer`
skips the right eye's `Submit`, returns that error, and still advances the
submit cursors of both eyes' swapchains (the right one only when it is a
distinct chain from the left). -/
theorem submitFovLayer_left_error_skips_right (env : RuntimeEnv) (s : CompositorState)
    (sess : SessionData) (fovLayer : ovrLayerEyeFov)
    (herr : env.submitResult 0 ≠ EVRCompositorError.noErr) :
    countEvents (isCompositorSubmit 0) (SubmitFovLayer env s sess fovLayer).2.2 = 1 ∧
    countEvents (isCompositorSubmit 1) (SubmitFovLayer env s sess fovLayer).2.2 = 0 ∧
    (SubmitFovLayer env s sess fovLayer).1 = env.submitResult 0 ∧
    (SubmitFovLayer env s sess fovLayer).2.1.chains fovLayer.ColorTextureLeft =
      chainSubmit (s.chains fovLayer.ColorTextureLeft) ∧
    (fovLayer.ColorTextureRight.getD fovLayer.ColorTextureLeft ≠ fovLayer.ColorTextureLeft →
      (SubmitFovLayer env s sess fovLayer).2.1.chains
          (fovLayer.ColorTextureRight.getD fovLayer.ColorTextureLeft) =
        chainSubmit (s.chains (fovLayer.ColorTextureRight.getD fovLayer.ColorTextureLeft))) := by
  simp only [SubmitFovLayer, if_pos herr]
  refine ⟨?_, ?_, ?_, ?_, ?_⟩
  · simp [countEvents, isCompositorSubmit]
  · simp [countEvents, isCompositorSubmit]
  · trivial
  · by_cases hd :
        fovLayer.ColorTextureLeft ≠ fovLayer.ColorTextureRight.getD fovLayer.ColorTextureLeft
    · rw [if_pos hd, submitChain_other _ _ _ hd, submitChain_same]
    · rw [if_neg hd, submitChain_same]
  · intro hne
    have hd :
        fovLayer.ColorTextureLeft ≠ fovLayer.ColorTextureRight.getD fovLayer.ColorTextureLeft :=
      fun h => hne h.symm
    rw [if_pos hd, submitChain_same, submitChain_other _ _ _ hne]

/-- Witness for C3: a stereo layer over distinct chains 0 and 1 with an
erroring left-eye submission: no right-eye `Submit` happens, yet both chains'
cursors advance from 0 to 1. -/
theorem submitFovLayer_left_error_skips_right_witness :
    countEvents (isCompositorSubmit 1)
      (SubmitFovLayer ⟨fun _ => .invalidTexture, fun _ => .noErr, fun p => p⟩
        ⟨TextureType.DirectX, false, 2, 0, [], fun _ => ⟨0, 2, 0, none, 100, 100⟩⟩
        ⟨0, .standing, ⟨1, 1, 1, 1⟩, ⟨1, 1, 1, 1⟩⟩
        ⟨⟨false, false⟩, 0, some 1, ⟨0, 0, 100, 100⟩, ⟨0, 0, 100, 100⟩,
          ⟨1, 1, 1, 1⟩, ⟨1, 1, 1, 1⟩, 0, 0, 0⟩).2.2 = 0 ∧
    (SubmitFovLayer ⟨fun _ => .invalidTexture, fun _ => .noErr, fun p => p⟩
        ⟨TextureType.DirectX, false, 2, 0, [], fun _ => ⟨0, 2, 0, none, 100, 100⟩⟩
        ⟨0, .standing, ⟨1, 1, 1, 1⟩, ⟨1, 1, 1, 1⟩⟩
        ⟨⟨false, false⟩, 0, some 1, ⟨0, 0, 100, 100⟩, ⟨0, 0, 100, 100⟩,
          ⟨1, 1, 1, 1⟩, ⟨1, 1, 1, 1⟩, 0, 0, 0⟩).2.1.chains 1 =
      chainSubmit ⟨0, 2, 0, none, 100, 100⟩ := by
  have h := submitFovLayer_left_error_skips_right
    ⟨fun _ => .invalidTexture, fun _ => .noErr, fun p => p⟩
    ⟨TextureType.DirectX, false, 2, 0, [], fun _ => ⟨0, 2, 0, none, 100, 100⟩⟩
    ⟨0, .standing, ⟨1, 1, 1, 1⟩, ⟨1, 1, 1, 1⟩⟩
    ⟨⟨false, false⟩, 0, some 1, ⟨0, 0, 100, 100⟩, ⟨0, 0, 100, 100⟩,
      ⟨1, 1, 1, 1⟩, ⟨1, 1, 1, 1⟩, 0, 0, 0⟩ (by decide)
  exact ⟨h.2.1, h.2.2.2.2 (by decide)⟩

theorem countEvents_append (p : VREvent → Bool) (a b : List VREvent) :
    countEvents p (a ++ b) = countEvents p a + countEvents p b := by
  simp [countEvents]

theorem blitFovLayers_mirror (s : CompositorState) (d l : ovrLayerEyeFov) :
    (BlitFovLayers s d l).1.m_MirrorTexture = s.m_MirrorTexture := by
  simp only [BlitFovLayers]
  split <;> rfl

theorem blitFovLayers_trace (s : CompositorState) (d l : ovrLayerEyeFov) :
    ∀ e ∈ (BlitFovLayers s d l).2, isBlit e = true := by
  intro e he
  simp only [BlitFovLayers, List.mem_cons, List.mem_singleton] at he
  rcases he with rfl | rfl | h
  · rfl
  · rfl
  · cases h

theorem layerAsFov_isSome (lay : OvrLayer) : (layerAsFov lay).isSome = isEyeLayer lay := by
  cases lay <;> rfl

theorem eyeLayerCount_cons_some (lay : OvrLayer) (rest : List (Option OvrLayer)) :
    eyeLayerCount (some lay :: rest) =
      (if isEyeLayer lay then 1 else 0) + eyeLayerCount rest := by
  by_cases hp : isEyeLayer lay <;>
    simp [eyeLayerCount, List.filter_cons, hp, Nat.add_comm]

theorem eyeLayerCount_cons_none (rest : List (Option OvrLayer)) :
    eyeLayerCount (none :: rest) = eyeLayerCount rest := by
  simp [eyeLayerCount, List.filter_cons]

/-- A single layer-loop iteration issues no runtime `Submit` and no mirror
refresh. -/
theorem processLayer_submit_mirror_count (s : CompositorState) (sess : SessionData)
    (base : Option ovrLayerEyeFov) (active : List Nat) (i : Nat) (lay : OvrLayer)
    (j : Fin 2) :
    countEvents (isCompositorSubmit j) (processLayer s sess base active i lay).2.2.2 = 0 ∧
    countEvents isRenderMirror (processLayer s sess base active i lay).2.2.2 = 0 := by
  cases lay with
  | quad q =>
    cases hh : q.Flags.headLocked <;>
      rcases hov : (s.chains q.ColorTexture).Overlay with _ | h <;>
      simp [processLayer, hov, hh, countEvents, isCompositorSubmit, isRenderMirror]
  | eyeFov l =>
    cases base <;>
      simp [processLayer, BlitFovLayers, countEvents, isCompositorSubmit, isRenderMirror]
  | eyeFovDepth l =>
    cases base <;>
      simp [processLayer, BlitFovLayers, countEvents, isCompositorSubmit, isRenderMirror]
  | eyeFovMultires l =>
    cases base <;>
      simp [processLayer, BlitFovLayers, countEvents, isCompositorSubmit, isRenderMirror]
  | eyeMatrix m =>
    cases base <;>
      simp [processLayer, BlitFovLayers, countEvents, isCompositorSubmit, isRenderMirror]
  | unhandled =>
    exact ⟨rfl, rfl⟩

/-- A single layer-loop iteration emits exactly two blits when it is an
eye-view layer arriving after the base layer, and none otherwise. -/
theorem processLayer_blit_count (s : CompositorState) (sess : SessionData)
    (base : Option ovrLayerEyeFov) (active : List Nat) (i : Nat) (lay : OvrLayer) :
    countEvents isBlit (processLayer s sess base active i lay).2.2.2 =
      (match base, layerAsFov lay with
       | some _, some _ => 2
       | _, _ => 0) := by
  cases lay with
  | quad q =>
    cases hh : q.Flags.headLocked <;>
      rcases hov : (s.chains q.ColorTexture).Overlay with _ | h <;>
      cases base <;>
      simp [processLayer, layerAsFov, hov, hh, countEvents, isBlit]
  | eyeFov l =>
    cases base <;> simp [processLayer, layerAsFov, BlitFovLayers, countEvents, isBlit]
  | eyeFovDepth l =>
    cases base <;> simp [processLayer, layerAsFov, BlitFovLayers, countEvents, isBlit]
  | eyeFovMultires l =>
    cases base <;> simp [processLayer, layerAsFov, BlitFovLayers, countEvents, isBlit]
  | eyeMatrix m =>
    cases base <;> simp [processLayer, layerAsFov, BlitFovLayers, countEvents, isBlit]
  | unhandled =>
    cases base <;> rfl

/-- A single layer-loop iteration never changes `m_MirrorTexture`. -/
theorem processLayer_mirror_state (s : CompositorState) (sess : SessionData)
    (base : Option ovrLayerEyeFov) (active : List Nat) (i : Nat) (lay : OvrLayer) :
    (processLayer s sess base active i lay).1.m_MirrorTexture = s.m_MirrorTexture := by
  cases lay with
  | quad q =>
    rcases hov : (s.chains q.ColorTexture).Overlay with _ | h <;>
      simp [processLayer, hov, submitChain, setChain]
  | eyeFov l => cases base <;> simp [processLayer, blitFovLayers_mirror]
  | eyeFovDepth l => cases base <;> simp [processLayer, blitFovLayers_mirror]
  | eyeFovMultires l => cases base <;> simp [processLayer, blitFovLayers_mirror]
  | eyeMatrix m => cases base <;> simp [processLayer, blitFovLayers_mirror]
  | unhandled => rfl

/-- A single layer-loop iteration keeps an existing base layer, and otherwise
adopts the layer's eye-view content (if any) as the new base. -/
theorem processLayer_base (s : CompositorState) (sess : SessionData)
    (base : Option ovrLayerEyeFov) (active : List Nat) (i : Nat) (lay : OvrLayer) :
    (processLayer s sess base active i lay).2.1 =
      (match base with
       | some b => some b
       | none => layerAsFov lay) := by
  cases lay with
  | quad q =>
    rcases hov : (s.chains q.ColorTexture).Overlay with _ | h <;>
      cases base <;> simp [processLayer, layerAsFov, hov]
  | eyeFov l => cases base <;> simp [processLayer, layerAsFov]
  | eyeFovDepth l => cases base <;> simp [processLayer, layerAsFov]
  | eyeFovMultires l => cases base <;> simp [processLayer, layerAsFov]
  | eyeMatrix m => cases base <;> simp [processLayer, layerAsFov]
  | unhandled => cases base <;> rfl

/-- The layer loop issues no runtime `Submit` and no mirror refresh. -/
theorem processLayers_submit_mirror_count (sess : SessionData) (j : Fin 2) :
    ∀ (layers : List (Option OvrLayer)) (s : CompositorState)
      (base : Option ovrLayerEyeFov) (active : List Nat) (i : Nat),
      countEvents (isCompositorSubmit j) (processLayers s sess base active i layers).2.2.2 = 0 ∧
      countEvents isRenderMirror (processLayers s sess base active i layers).2.2.2 = 0 := by
  intro layers
  induction layers with
  | nil => intro s base active i; exact ⟨rfl, rfl⟩
  | cons hd rest ih =>
    intro s base active i
    cases hd with
    | none => exact ih s base active (i + 1)
    | some lay =>
      have hone := processLayer_submit_mirror_count s sess base active i lay j
      have hrest := ih (processLayer s sess base active i lay).1
        (processLayer s sess base active i lay).2.1
        (processLayer s sess base active i lay).2.2.1 (i + 1)
      simp only [processLayers, countEvents_append, hone.1, hone.2, hrest.1, hrest.2]
      simp

/-- The layer loop never changes `m_MirrorTexture`. -/
theorem processLayers_mirror_state (sess : SessionData) :
    ∀ (layers : List (Option OvrLayer)) (s : CompositorState)
      (base : Option ovrLayerEyeFov) (active : List Nat) (i : Nat),
      (processLayers s sess base active i layers).1.m_MirrorTexture = s.m_MirrorTexture := by
  intro layers
  induction layers with
  | nil => intro s base active i; rfl
  | cons hd rest ih =>
    intro s base active i
    cases hd with
    | none => exact ih s base active (i + 1)
    | some lay =>
      simp only [processLayers]
      rw [ih (processLayer s sess base active i lay).1
        (processLayer s sess base active i lay).2.1
        (processLayer s sess base active i lay).2.2.1 (i + 1)]
      exact processLayer_mirror_state s sess base active i lay

/-- The base layer produced by the layer loop is the first eye-view layer
encountered (converting matrix layers), or the incoming base if there was
one. -/
theorem processLayers_base (sess : SessionData) :
    ∀ (layers : List (Option OvrLayer)) (s : CompositorState)
      (base : Option ovrLayerEyeFov) (active : List Nat) (i : Nat),
      (processLayers s sess base active i layers).2.1 =
        (match base with
         | some b => some b
         | none => firstFovLayer layers) := by
  intro layers
  induction layers with
  | nil => intro s base active i; cases base <;> rfl
  | cons hd rest ih =>
    intro s base active i
    cases hd with
    | none =>
      have h := ih s base active (i + 1)
      cases base <;> simpa [processLayers, firstFovLayer] using h
    | some lay =>
      simp only [processLayers]
      rw [ih (processLayer s sess base active i lay).1
        (processLayer s sess base active i lay).2.1
        (processLayer s sess base active i lay).2.2.1 (i + 1),
        processLayer_base]
      cases base with
      | some b => rfl
      | none =>
        rcases hl : layerAsFov lay with _ | l <;>
          simp [firstFovLayer, hl]

/-- The layer loop emits exactly two blits per eye-view layer beyond the base
one. -/
theorem processLayers_blit_count (sess : SessionData) :
    ∀ (layers : List (Option OvrLayer)) (s : CompositorState)
      (base : Option ovrLayerEyeFov) (active : List Nat) (i : Nat),
      countEvents isBlit (processLayers s sess base active i layers).2.2.2 =
        (match base with
         | some _ => 2 * eyeLayerCount layers
         | none => 2 * (eyeLayerCount layers - 1)) := by
  intro layers
  induction layers with
  | nil =>
    intro s base active i
    cases base <;> simp [processLayers, countEvents, eyeLayerCount]
  | cons hd rest ih =>
    intro s base active i
    cases hd with
    | none =>
      have h := ih s base active (i + 1)
      cases base <;>
        simpa [processLayers, eyeLayerCount_cons_none] using h
    | some lay =>
      simp only [processLayers, countEvents_append, processLayer_blit_count,
        eyeLayerCount_cons_some]
      rw [ih (processLayer s sess base active i lay).1
        (processLayer s sess base active i lay).2.1
        (processLayer s sess base active i lay).2.2.1 (i + 1),
        processLayer_base]
      have hiso := layerAsFov_isSome lay
      cases base with
      | some b =>
        rcases hl : layerAsFov lay with _ | l <;> rw [hl] at hiso <;>
          simp [← hiso, Nat.mul_add, Nat.add_comm]
      | none =>
        rcases hl : layerAsFov lay with _ | l <;> rw [hl] at hiso <;>
          simp [← hiso, Nat.add_sub_cancel]

theorem countEvents_cons (p : VREvent → Bool) (e : VREvent) (t : List VREvent) :
    countEvents p (e :: t) = (if p e then 1 else 0) + countEvents p t := by
  simp only [countEvents, List.filter_cons]
  split <;> simp [Nat.add_comm]

theorem countEvents_map_hide (p : VREvent → Bool) (l : List Nat)
    (h : ∀ n, p (VREvent.hideOverlay n) = false) :
    countEvents p (l.map VREvent.hideOverlay) = 0 := by
  induction l with
  | nil => rfl
  | cons a t ih => simp [countEvents_cons, h, ih]

/-- `SubmitFovLayer` submits the left eye exactly once, the right eye exactly
once when the left eye's submission succeeded and not at all otherwise,
performs no blits and no mirror refresh, returns the frame's submission
error, and leaves `m_MirrorTexture` unchanged. -/
theorem submitFovLayer_counts (env : RuntimeEnv) (s : CompositorState)
    (sess : SessionData) (fovLayer : ovrLayerEyeFov) :
    countEvents (isCompositorSubmit 0) (SubmitFovLayer env s sess fovLayer).2.2 = 1 ∧
    countEvents (isCompositorSubmit 1) (SubmitFovLayer env s sess fovLayer).2.2 =
      (if env.submitResult 0 = EVRCompositorError.noErr then 1 else 0) ∧
    countEvents isBlit (SubmitFovLayer env s sess fovLayer).2.2 = 0 ∧
    countEvents isRenderMirror (SubmitFovLayer env s sess fovLayer).2.2 = 0 ∧
    (SubmitFovLayer env s sess fovLayer).1 = frameSubmitError env ∧
    (SubmitFovLayer env s sess fovLayer).2.1.m_MirrorTexture = s.m_MirrorTexture := by
  by_cases he : env.submitResult 0 = EVRCompositorError.noErr <;>
    refine ⟨?_, ?_, ?_, ?_, ?_, ?_⟩ <;>
    simp [SubmitFovLayer, frameSubmitError, he, countEvents, isCompositorSubmit,
      isBlit, isRenderMirror] <;>
    split <;> simp [submitChain, setChain]

theorem eyeLayerCount_le_length (layers : List (Option OvrLayer)) :
    eyeLayerCount layers ≤ layers.length :=
  List.length_filter_le _ layers

theorem firstFovLayer_of_eyeLayer :
    ∀ layers : List (Option OvrLayer), 1 ≤ eyeLayerCount layers →
      ∃ b, firstFovLayer layers = some b := by
  intro layers
  induction layers with
  | nil => intro h; simp [eyeLayerCount] at h
  | cons hd rest ih =>
    intro h
    cases hd with
    | none =>
      rw [eyeLayerCount_cons_none] at h
      simpa [firstFovLayer] using ih h
    | some lay =>
      rcases hl : layerAsFov lay with _ | l
      · have hiso := layerAsFov_isSome lay
        rw [hl] at hiso
        rw [eyeLayerCount_cons_some, ← hiso] at h
        simpa [firstFovLayer, hl] using ih (by simpa using h)
      · exact ⟨l, by simp [firstFovLayer, hl]⟩

/-- The full `EndFrame` trace in the branch where a base eye-view layer was
found: a flush, the layer-loop events, the hide events, the base-layer
submission events, and the conditional mirror refresh. -/
theorem endFrame_trace_eq (env : RuntimeEnv) (s : CompositorState) (sess : SessionData)
    (layers : List (Option OvrLayer)) (b : ovrLayerEyeFov)
    (hb : firstFovLayer layers = some b) (hne : ¬ layers.length = 0) :
    (EndFrame env s sess (some layers)).2.2 =
      VREvent.flush ::
        ((processLayers s sess none [] 0 layers).2.2.2 ++
         ((s.m_ActiveOverlays.filter fun h =>
             ¬ (processLayers s sess none [] 0 layers).2.2.1.contains h).map
           VREvent.hideOverlay) ++
         (SubmitFovLayer env
           { (processLayers s sess none [] 0 layers).1 with
             m_ActiveOverlays := (processLayers s sess none [] 0 layers).2.2.1 } sess b).2.2 ++
         (if (SubmitFovLayer env
                { (processLayers s sess none [] 0 layers).1 with
                  m_ActiveOverlays := (processLayers s sess none [] 0 layers).2.2.1 }
                sess b).2.1.m_MirrorTexture ∧
             (SubmitFovLayer env
                { (processLayers s sess none [] 0 layers).1 with
                  m_ActiveOverlays := (processLayers s sess none [] 0 layers).2.2.1 }
                sess b).1 = EVRCompositorError.noErr then
            [VREvent.renderMirrorTexture] else []) ) := by
  have hbase : (processLayers s sess none [] 0 layers).2.1 = some b := by
    rw [processLayers_base sess layers s none [] 0]
    exact hb
  simp only [EndFrame, if_neg hne, hbase]

theorem countEvents_ite_mirror (p : VREvent → Bool) (c : Prop) [Decidable c]
    (h : p VREvent.renderMirrorTexture = false) :
    countEvents p (if c then [VREvent.renderMirrorTexture] else []) = 0 := by
  split <;> simp [countEvents, h]

/-- Counterexample to claim C1: two `EyeFov` layers in one frame, with the
runtime erroring on the left eye's `Submit`: the right eye receives zero
`Submit` calls, not exactly one. -/
theorem endFrame_two_eyeFov_left_error_no_right_submit :
    countEvents (isCompositorSubmit 1)
      (EndFrame ⟨fun _ => .invalidTexture, fun _ => .noErr, fun p => p⟩
        ⟨TextureType.DirectX, false, 2, 0, [], fun _ => ⟨0, 2, 0, none, 100, 100⟩⟩
        ⟨0, .standing, ⟨1, 1, 1, 1⟩, ⟨1, 1, 1, 1⟩⟩
        (some [some (OvrLayer.eyeFov ⟨⟨false, false⟩, 0, some 1, ⟨0, 0, 100, 100⟩,
            ⟨0, 0, 100, 100⟩, ⟨1, 1, 1, 1⟩, ⟨1, 1, 1, 1⟩, 0, 0, 0⟩),
          some (OvrLayer.eyeFov ⟨⟨false, false⟩, 0, some 1, ⟨0, 0, 100, 100⟩,
            ⟨0, 0, 100, 100⟩, ⟨1, 1, 1, 1⟩, ⟨1, 1, 1, 1⟩, 0, 0, 0⟩)])).2.2 = 0 := by
  decide

/-- Claim C1 (amended): for every frame whose layer list contains two or more
eye-view layers, `EndFrame` submits the left eye to the runtime exactly once
and the right eye exactly once when the left eye's submission succeeded (zero
times otherwise); every eye-view layer beyond the first is blitted (two blit
events each) rather than submitted, and the base layer is the first eye-view
layer encountered. -/
theorem endFrame_one_submission_per_eye (env : RuntimeEnv) (s : CompositorState)
    (sess : SessionData) (layers : List (Option OvrLayer))
    (h2 : 2 ≤ eyeLayerCount layers) :
    countEvents (isCompositorSubmit 0) (EndFrame env s sess (some layers)).2.2 = 1 ∧
    countEvents (isCompositorSubmit 1) (EndFrame env s sess (some layers)).2.2 =
      (if env.submitResult 0 = EVRCompositorError.noErr then 1 else 0) ∧
    countEvents isBlit (EndFrame env s sess (some layers)).2.2 =
      2 * (eyeLayerCount layers - 1) ∧
    (processLayers s sess none [] 0 layers).2.1 = firstFovLayer layers := by
  have hne : ¬ layers.length = 0 := by
    have := eyeLayerCount_le_length layers; omega
  obtain ⟨b, hb⟩ := firstFovLayer_of_eyeLayer layers (by omega)
  rw [endFrame_trace_eq env s sess layers b hb hne]
  refine ⟨?_, ?_, ?_, processLayers_base sess layers s none [] 0⟩
  · rw [countEvents_cons]
    simp only [countEvents_append,
      (processLayers_submit_mirror_count sess 0 layers s none [] 0).1,
      countEvents_map_hide (isCompositorSubmit 0) _ (fun n => rfl),
      (submitFovLayer_counts env _ sess b).1,
      countEvents_ite_mirror (isCompositorSubmit 0) _ rfl]
    simp [isCompositorSubmit]
  · rw [countEvents_cons]
    simp only [countEvents_append,
      (processLayers_submit_mirror_count sess 1 layers s none [] 0).1,
      countEvents_map_hide (isCompositorSubmit 1) _ (fun n => rfl),
      (submitFovLayer_counts env _ sess b).2.1,
      countEvents_ite_mirror (isCompositorSubmit 1) _ rfl]
    simp [isCompositorSubmit]
  · rw [countEvents_cons]
    simp only [countEvents_append,
      processLayers_blit_count sess layers s none [] 0,
      countEvents_map_hide isBlit _ (fun n => rfl),
      (submitFovLayer_counts env _ sess b).2.2.1,
      countEvents_ite_mirror isBlit _ rfl]
    simp [isBlit]

/-- Witness for C1 (amended) on a frame with two `EyeFov` layers and a
successful runtime: one submission per eye and two blits. -/
theorem endFrame_one_submission_per_eye_witness :
    countEvents (isCompositorSubmit 0)
      (EndFrame ⟨fun _ => .noErr, fun _ => .noErr, fun p => p⟩
        ⟨TextureType.DirectX, false, 2, 0, [], fun _ => ⟨0, 2, 0, none, 100, 100⟩⟩
        ⟨0, .standing, ⟨1, 1, 1, 1⟩, ⟨1, 1, 1, 1⟩⟩
        (some [some (OvrLayer.eyeFov ⟨⟨false, false⟩, 0, some 1, ⟨0, 0, 100, 100⟩,
            ⟨0, 0, 100, 100⟩, ⟨1, 1, 1, 1⟩, ⟨1, 1, 1, 1⟩, 0, 0, 0⟩),
          some (OvrLayer.eyeFov ⟨⟨false, false⟩, 0, some 1, ⟨0, 0, 100, 100⟩,
            ⟨0, 0, 100, 100⟩, ⟨1, 1, 1, 1⟩, ⟨1, 1, 1, 1⟩, 0, 0, 0⟩)])).2.2 = 1 ∧
    countEvents (isCompositorSubmit 1)
      (EndFrame ⟨fun _ => .noErr, fun _ => .noErr, fun p => p⟩
        ⟨TextureType.DirectX, false, 2, 0, [], fun _ => ⟨0, 2, 0, none, 100, 100⟩⟩
        ⟨0, .standing, ⟨1, 1, 1, 1⟩, ⟨1, 1, 1, 1⟩⟩
        (some [some (OvrLayer.eyeFov ⟨⟨false, false⟩, 0, some 1, ⟨0, 0, 100, 100⟩,
            ⟨0, 0, 100, 100⟩, ⟨1, 1, 1, 1⟩, ⟨1, 1, 1, 1⟩, 0, 0, 0⟩),
          some (OvrLayer.eyeFov ⟨⟨false, false⟩, 0, some 1, ⟨0, 0, 100, 100⟩,
            ⟨0, 0, 100, 100⟩, ⟨1, 1, 1, 1⟩, ⟨1, 1, 1, 1⟩, 0, 0, 0⟩)])).2.2 = 1 ∧
    countEvents isBlit
      (EndFrame ⟨fun _ => .noErr, fun _ => .noErr, fun p => p⟩
        ⟨TextureType.DirectX, false, 2, 0, [], fun _ => ⟨0, 2, 0, none, 100, 100⟩⟩
        ⟨0, .standing, ⟨1, 1, 1, 1⟩, ⟨1, 1, 1, 1⟩⟩
        (some [some (OvrLayer.eyeFov ⟨⟨false, false⟩, 0, some 1, ⟨0, 0, 100, 100⟩,
            ⟨0, 0, 100, 100⟩, ⟨1, 1, 1, 1⟩, ⟨1, 1, 1, 1⟩, 0, 0, 0⟩),
          some (OvrLayer.eyeFov ⟨⟨false, false⟩, 0, some 1, ⟨0, 0, 100, 100⟩,
            ⟨0, 0, 100, 100⟩, ⟨1, 1, 1, 1⟩, ⟨1, 1, 1, 1⟩, 0, 0, 0⟩)])).2.2 = 2 := by
  have h := endFrame_one_submission_per_eye
    ⟨fun _ => .noErr, fun _ => .noErr, fun p => p⟩
    ⟨TextureType.DirectX, false, 2, 0, [], fun _ => ⟨0, 2, 0, none, 100, 100⟩⟩
    ⟨0, .standing, ⟨1, 1, 1, 1⟩, ⟨1, 1, 1, 1⟩⟩
    [some (OvrLayer.eyeFov ⟨⟨false, false⟩, 0, some 1, ⟨0, 0, 100, 100⟩,
        ⟨0, 0, 100, 100⟩, ⟨1, 1, 1, 1⟩, ⟨1, 1, 1, 1⟩, 0, 0, 0⟩),
      some (OvrLayer.eyeFov ⟨⟨false, false⟩, 0, some 1, ⟨0, 0, 100, 100⟩,
        ⟨0, 0, 100, 100⟩, ⟨1, 1, 1, 1⟩, ⟨1, 1, 1, 1⟩, 0, 0, 0⟩)] (by decide)
  exact ⟨h.1, by simpa using h.2.1, by simpa [eyeLayerCount, isEyeLayer] using h.2.2.1⟩

/-- Claim C5: on a frame that contains at least one eye-view layer, the mirror
surface is refreshed exactly when a mirror surface exists and the base-layer
submission succeeded cleanly; otherwise the refresh is skipped (zero mirror
events in the frame's trace). -/
theorem endFrame_mirror_refresh_iff (env : RuntimeEnv) (s : CompositorState)
    (sess : SessionData) (layers : List (Option OvrLayer))
    (h1 : 1 ≤ eyeLayerCount layers) :
    countEvents isRenderMirror (EndFrame env s sess (some layers)).2.2 =
      (if s.m_MirrorTexture ∧ frameSubmitError env = EVRCompositorError.noErr
       then 1 else 0) := by
  have hne : ¬ layers.length = 0 := by
    have := eyeLayerCount_le_length layers; omega
  obtain ⟨b, hb⟩ := firstFovLayer_of_eyeLayer layers h1
  rw [endFrame_trace_eq env s sess layers b hb hne]
  rw [countEvents_cons]
  have hs3 : (SubmitFovLayer env
      { (processLayers s sess none [] 0 layers).1 with
        m_ActiveOverlays := (processLayers s sess none [] 0 layers).2.2.1 }
      sess b).2.1.m_MirrorTexture = s.m_MirrorTexture := by
    rw [(submitFovLayer_counts env _ sess b).2.2.2.2.2]
    exact processLayers_mirror_state sess layers s none [] 0
  have herr : (SubmitFovLayer env
      { (processLayers s sess none [] 0 layers).1 with
        m_ActiveOverlays := (processLayers s sess none [] 0 layers).2.2.1 }
      sess b).1 = frameSubmitError env :=
    (submitFovLayer_counts env _ sess b).2.2.2.2.1
  simp only [countEvents_append,
    (processLayers_submit_mirror_count sess 0 layers s none [] 0).2,
    countEvents_map_hide isRenderMirror _ (fun n => rfl),
    (submitFovLayer_counts env _ sess b).2.2.2.1, hs3, herr]
  have hflush : isRenderMirror VREvent.flush = false := rfl
  simp only [hflush, Bool.false_eq_true, if_false, Nat.zero_add, Nat.add_zero]
  split_ifs <;> simp [countEvents, isRenderMirror]

/-- Witness for C5: one `EyeFov` layer, an existing mirror surface and a clean
submission give exactly one mirror refresh. -/
theorem endFrame_mirror_refresh_iff_witness :
    countEvents isRenderMirror
      (EndFrame ⟨fun _ => .noErr, fun _ => .noErr, fun p => p⟩
        ⟨TextureType.DirectX, true, 2, 0, [], fun _ => ⟨0, 2, 0, none, 100, 100⟩⟩
        ⟨0, .standing, ⟨1, 1, 1, 1⟩, ⟨1, 1, 1, 1⟩⟩
        (some [some (OvrLayer.eyeFov ⟨⟨false, false⟩, 0, some 1, ⟨0, 0, 100, 100⟩,
            ⟨0, 0, 100, 100⟩, ⟨1, 1, 1, 1⟩, ⟨1, 1, 1, 1⟩, 0, 0, 0⟩)])).2.2 = 1 := by
  have h := endFrame_mirror_refresh_iff
    ⟨fun _ => .noErr, fun _ => .noErr, fun p => p⟩
    ⟨TextureType.DirectX, true, 2, 0, [], fun _ => ⟨0, 2, 0, none, 100, 100⟩⟩
    ⟨0, .standing, ⟨1, 1, 1, 1⟩, ⟨1, 1, 1, 1⟩⟩
    [some (OvrLayer.eyeFov ⟨⟨false, false⟩, 0, some 1, ⟨0, 0, 100, 100⟩,
        ⟨0, 0, 100, 100⟩, ⟨1, 1, 1, 1⟩, ⟨1, 1, 1, 1⟩, 0, 0, 0⟩)] (by decide)
  simpa [frameSubmitError] using h

/-- Every swapchain in the heap already carries a valid overlay handle. -/
def allOverlaysSet (s : CompositorState) : Prop :=
  ∀ c : ChainId, (s.chains c).Overlay ≠ none

theorem submitChain_overlay (s : CompositorState) (c c' : ChainId) :
    ((submitChain s c).chains c').Overlay = (s.chains c').Overlay := by
  by_cases h : c' = c
  · subst h; rw [submitChain_same]; rfl
  · rw [submitChain_other _ _ _ h]

theorem allOverlaysSet_submitChain (s : CompositorState) (c : ChainId)
    (h : allOverlaysSet s) : allOverlaysSet (submitChain s c) := by
  intro c'
  rw [submitChain_overlay]
  exact h c'

theorem allOverlaysSet_blit (s : CompositorState) (d l : ovrLayerEyeFov)
    (h : allOverlaysSet s) : allOverlaysSet (BlitFovLayers s d l).1 := by
  simp only [BlitFovLayers]
  split
  · exact allOverlaysSet_submitChain _ _ (allOverlaysSet_submitChain _ _ h)
  · exact allOverlaysSet_submitChain _ _ h

theorem quadLayerCount_cons_some (lay : OvrLayer) (rest : List (Option OvrLayer)) :
    quadLayerCount (some lay :: rest) =
      (if isQuadLayer lay then 1 else 0) + quadLayerCount rest := by
  by_cases hp : isQuadLayer lay <;>
    simp [quadLayerCount, List.filter_cons, hp, Nat.add_comm]

theorem quadLayerCount_cons_none (rest : List (Option OvrLayer)) :
    quadLayerCount (none :: rest) = quadLayerCount rest := by
  simp [quadLayerCount, List.filter_cons]

/-- On a heap where every chain already has an overlay handle, a single
layer-loop iteration creates no overlay and binds no overlay texture, emits
exactly one sort-order, width, transform, bounds and show call when the layer
is a quad (none otherwise), and preserves the all-overlays-set invariant. -/
theorem processLayer_overlay_counts (s : CompositorState) (sess : SessionData)
    (base : Option ovrLayerEyeFov) (active : List Nat) (i : Nat) (lay : OvrLayer)
    (hov : allOverlaysSet s) :
    allOverlaysSet (processLayer s sess base active i lay).1 ∧
    countEvents isCreateOverlay (processLayer s sess base active i lay).2.2.2 = 0 ∧
    countEvents isSetOverlayTexture (processLayer s sess base active i lay).2.2.2 = 0 ∧
    countEvents isShowOverlay (processLayer s sess base active i lay).2.2.2 =
      (if isQuadLayer lay then 1 else 0) ∧
    countEvents isSetOverlaySortOrder (processLayer s sess base active i lay).2.2.2 =
      (if isQuadLayer lay then 1 else 0) ∧
    countEvents isSetOverlayWidth (processLayer s sess base active i lay).2.2.2 =
      (if isQuadLayer lay then 1 else 0) ∧
    countEvents isSetOverlayTransform (processLayer s sess base active i lay).2.2.2 =
      (if isQuadLayer lay then 1 else 0) ∧
    countEvents isSetOverlayTextureBounds (processLayer s sess base active i lay).2.2.2 =
      (if isQuadLayer lay then 1 else 0) := by
  cases lay with
  | quad q =>
    rcases hq : (s.chains q.ColorTexture).Overlay with _ | h
    · exact absurd hq (hov q.ColorTexture)
    · cases hh : q.Flags.headLocked <;>
      · simp only [processLayer, hq, hh]
        refine ⟨allOverlaysSet_submitChain _ _ hov, ?_⟩
        simp [countEvents, isCreateOverlay, isSetOverlayTexture,
          isShowOverlay, isSetOverlaySortOrder, isSetOverlayWidth, isSetOverlayTransform,
          isSetOverlayTextureBounds, isQuadLayer]
  | eyeFov l =>
    cases base with
    | none =>
      exact ⟨hov, rfl, rfl, rfl, rfl, rfl, rfl, rfl⟩
    | some b =>
      simp only [processLayer]
      refine ⟨allOverlaysSet_blit _ _ _ hov, ?_⟩
      simp [BlitFovLayers, countEvents, isCreateOverlay, isSetOverlayTexture,
        isShowOverlay, isSetOverlaySortOrder, isSetOverlayWidth, isSetOverlayTransform,
        isSetOverlayTextureBounds, isQuadLayer]
  | eyeFovDepth l =>
    cases base with
    | none =>
      exact ⟨hov, rfl, rfl, rfl, rfl, rfl, rfl, rfl⟩
    | some b =>
      simp only [processLayer]
      refine ⟨allOverlaysSet_blit _ _ _ hov, ?_⟩
      simp [BlitFovLayers, countEvents, isCreateOverlay, isSetOverlayTexture,
        isShowOverlay, isSetOverlaySortOrder, isSetOverlayWidth, isSetOverlayTransform,
        isSetOverlayTextureBounds, isQuadLayer]
  | eyeFovMultires l =>
    cases base with
    | none =>
      exact ⟨hov, rfl, rfl, rfl, rfl, rfl, rfl, rfl⟩
    | some b =>
      simp only [processLayer]
      refine ⟨allOverlaysSet_blit _ _ _ hov, ?_⟩
      simp [BlitFovLayers, countEvents, isCreateOverlay, isSetOverlayTexture,
        isShowOverlay, isSetOverlaySortOrder, isSetOverlayWidth, isSetOverlayTransform,
        isSetOverlayTextureBounds, isQuadLayer]
  | eyeMatrix m =>
    cases base with
    | none =>
      exact ⟨hov, rfl, rfl, rfl, rfl, rfl, rfl, rfl⟩
    | some b =>
      simp only [processLayer]
      refine ⟨allOverlaysSet_blit _ _ _ hov, ?_⟩
      simp [BlitFovLayers, countEvents, isCreateOverlay, isSetOverlayTexture,
        isShowOverlay, isSetOverlaySortOrder, isSetOverlayWidth, isSetOverlayTransform,
        isSetOverlayTextureBounds, isQuadLayer]
  | unhandled =>
    exact ⟨hov, rfl, rfl, rfl, rfl, rfl, rfl, rfl⟩

/-- Folded version of `processLayer_overlay_counts` over the whole layer
list. -/
theorem processLayers_overlay_counts (sess : SessionData) :
    ∀ (layers : List (Option OvrLayer)) (s : CompositorState)
      (base : Option ovrLayerEyeFov) (active : List Nat) (i : Nat),
      allOverlaysSet s →
      allOverlaysSet (processLayers s sess base active i layers).1 ∧
      countEvents isCreateOverlay (processLayers s sess base active i layers).2.2.2 = 0 ∧
      countEvents isSetOverlayTexture (processLayers s sess base active i layers).2.2.2 = 0 ∧
      countEvents isShowOverlay (processLayers s sess base active i layers).2.2.2 =
        quadLayerCount layers ∧
      countEvents isSetOverlaySortOrder (processLayers s sess base active i layers).2.2.2 =
        quadLayerCount layers ∧
      countEvents isSetOverlayWidth (processLayers s sess base active i layers).2.2.2 =
        quadLayerCount layers ∧
      countEvents isSetOverlayTransform (processLayers s sess base active i layers).2.2.2 =
        quadLayerCount layers ∧
      countEvents isSetOverlayTextureBounds (processLayers s sess base active i layers).2.2.2 =
        quadLayerCount layers := by
  intro layers
  induction layers with
  | nil =>
    intro s base active i hov
    exact ⟨hov, rfl, rfl, rfl, rfl, rfl, rfl, rfl⟩
  | cons hd rest ih =>
    intro s base active i hov
    cases hd with
    | none =>
      have h := ih s base active (i + 1) hov
      simpa [processLayers, quadLayerCount_cons_none] using h
    | some lay =>
      obtain ⟨ho1, hc1, ht1, hs1, hso1, hw1, htr1, hb1⟩ :=
        processLayer_overlay_counts s sess base active i lay hov
      obtain ⟨ho2, hc2, ht2, hs2, hso2, hw2, htr2, hb2⟩ :=
        ih (processLayer s sess base active i lay).1
          (processLayer s sess base active i lay).2.1
          (processLayer s sess base active i lay).2.2.1 (i + 1) ho1
      refine ⟨ho2, ?_, ?_, ?_, ?_, ?_, ?_, ?_⟩ <;>
        simp [processLayers, countEvents_append, quadLayerCount_cons_some,
          hc1, ht1, hs1, hso1, hw1, htr1, hb1, hc2, ht2, hs2, hso2, hw2, htr2, hb2]

theorem countEvents_submitFov (p : VREvent → Bool) (env : RuntimeEnv)
    (s : CompositorState) (sess : SessionData) (fovLayer : ovrLayerEyeFov)
    (h : ∀ i c n b q, p (VREvent.compositorSubmit i c n b q) = false) :
    countEvents p (SubmitFovLayer env s sess fovLayer).2.2 = 0 := by
  simp only [SubmitFovLayer]
  split <;> simp [countEvents, h]

/-- The full `EndFrame` trace in the branch where no eye-view layer occurs:
a flush, the layer-loop events, the hide events, and the unconditional mirror
refresh when a mirror surface exists. -/
theorem endFrame_trace_eq_nobase (env : RuntimeEnv) (s : CompositorState)
    (sess : SessionData) (layers : List (Option OvrLayer))
    (hb : firstFovLayer layers = none) (hne : ¬ layers.length = 0) :
    (EndFrame env s sess (some layers)).2.2 =
      VREvent.flush ::
        ((processLayers s sess none [] 0 layers).2.2.2 ++
         ((s.m_ActiveOverlays.filter fun h =>
             ¬ (processLayers s sess none [] 0 layers).2.2.1.contains h).map
           VREvent.hideOverlay) ++
         (if (processLayers s sess none [] 0 layers).1.m_MirrorTexture then
            [VREvent.renderMirrorTexture] else [])) := by
  have hbase : (processLayers s sess none [] 0 layers).2.1 = none := by
    rw [processLayers_base sess layers s none [] 0]
    exact hb
  simp only [EndFrame, if_neg hne, hbase]

/-- Claim C8: on a frame whose swapchains all already carry valid overlay
handles, `EndFrame` creates no overlay and never calls `SetOverlayTexture`
(the overlay texture is bound only at overlay creation), while still updating
sort order, width, transform and texture bounds and showing the overlay once
per quad layer. -/
theorem endFrame_existing_overlays_no_retexture (env : RuntimeEnv)
    (s : CompositorState) (sess : SessionData) (layers : List (Option OvrLayer))
    (hov : allOverlaysSet s) :
    countEvents isCreateOverlay (EndFrame env s sess (some layers)).2.2 = 0 ∧
    countEvents isSetOverlayTexture (EndFrame env s sess (some layers)).2.2 = 0 ∧
    countEvents isShowOverlay (EndFrame env s sess (some layers)).2.2 =
      quadLayerCount layers ∧
    countEvents isSetOverlaySortOrder (EndFrame env s sess (some layers)).2.2 =
      quadLayerCount layers ∧
    countEvents isSetOverlayWidth (EndFrame env s sess (some layers)).2.2 =
      quadLayerCount layers ∧
    countEvents isSetOverlayTransform (EndFrame env s sess (some layers)).2.2 =
      quadLayerCount layers ∧
    countEvents isSetOverlayTextureBounds (EndFrame env s sess (some layers)).2.2 =
      quadLayerCount layers := by
  by_cases hne : layers.length = 0
  · rw [List.length_eq_zero] at hne
    subst hne
    exact ⟨rfl, rfl, rfl, rfl, rfl, rfl, rfl⟩
  · obtain ⟨_, hc, ht, hs1, hso, hw, htr, hbnd⟩ :=
      processLayers_overlay_counts sess layers s none [] 0 hov
    rcases hb : firstFovLayer layers with _ | b
    · rw [endFrame_trace_eq_nobase env s sess layers hb hne]
      refine ⟨?_, ?_, ?_, ?_, ?_, ?_, ?_⟩ <;>
        simp only [countEvents_cons, countEvents_append, hc, ht, hs1, hso, hw, htr, hbnd] <;>
        simp [countEvents_map_hide, countEvents_ite_mirror,
          isCreateOverlay, isSetOverlayTexture, isShowOverlay, isSetOverlaySortOrder,
          isSetOverlayWidth, isSetOverlayTransform, isSetOverlayTextureBounds]
    · rw [endFrame_trace_eq env s sess layers b hb hne]
      refine ⟨?_, ?_, ?_, ?_, ?_, ?_, ?_⟩ <;>
        simp only [countEvents_cons, countEvents_append, hc, ht, hs1, hso, hw, htr, hbnd] <;>
        simp [countEvents_map_hide, countEvents_ite_mirror, countEvents_submitFov,
          isCreateOverlay, isSetOverlayTexture, isShowOverlay, isSetOverlaySortOrder,
          isSetOverlayWidth, isSetOverlayTransform, isSetOverlayTextureBounds]

/-- Witness for C8: one quad layer on a chain that already has overlay handle
7: the overlay is updated and shown once, and no `CreateOverlay` or
`SetOverlayTexture` occurs. -/
theorem endFrame_existing_overlays_no_retexture_witness :
    countEvents isCreateOverlay
      (EndFrame ⟨fun _ => .noErr, fun _ => .noErr, fun p => p⟩
        ⟨TextureType.DirectX, false, 2, 3, [], fun _ => ⟨0, 2, 0, some 7, 100, 100⟩⟩
        ⟨0, .standing, ⟨1, 1, 1, 1⟩, ⟨1, 1, 1, 1⟩⟩
        (some [some (OvrLayer.quad ⟨⟨false, false⟩, 0, 0, 1, ⟨0, 0, 50, 50⟩⟩)])).2.2 = 0 ∧
    countEvents isSetOverlayTexture
      (EndFrame ⟨fun _ => .noErr, fun _ => .noErr, fun p => p⟩
        ⟨TextureType.DirectX, false, 2, 3, [], fun _ => ⟨0, 2, 0, some 7, 100, 100⟩⟩
        ⟨0, .standing, ⟨1, 1, 1, 1⟩, ⟨1, 1, 1, 1⟩⟩
        (some [some (OvrLayer.quad ⟨⟨false, false⟩, 0, 0, 1, ⟨0, 0, 50, 50⟩⟩)])).2.2 = 0 ∧
    countEvents isShowOverlay
      (EndFrame ⟨fun _ => .noErr, fun _ => .noErr, fun p => p⟩
        ⟨TextureType.DirectX, false, 2, 3, [], fun _ => ⟨0, 2, 0, some 7, 100, 100⟩⟩
        ⟨0, .standing, ⟨1, 1, 1, 1⟩, ⟨1, 1, 1, 1⟩⟩
        (some [some (OvrLayer.quad ⟨⟨false, false⟩, 0, 0, 1, ⟨0, 0, 50, 50⟩⟩)])).2.2 = 1 ∧
    countEvents isSetOverlayTextureBounds
      (EndFrame ⟨fun _ => .noErr, fun _ => .noErr, fun p => p⟩
        ⟨TextureType.DirectX, false, 2, 3, [], fun _ => ⟨0, 2, 0, some 7, 100, 100⟩⟩
        ⟨0, .standing, ⟨1, 1, 1, 1⟩, ⟨1, 1, 1, 1⟩⟩
        (some [some (OvrLayer.quad ⟨⟨false, false⟩, 0, 0, 1, ⟨0, 0, 50, 50⟩⟩)])).2.2 = 1 := by
  have h := endFrame_existing_overlays_no_retexture
    ⟨fun _ => .noErr, fun _ => .noErr, fun p => p⟩
    ⟨TextureType.DirectX, false, 2, 3, [], fun _ => ⟨0, 2, 0, some 7, 100, 100⟩⟩
    ⟨0, .standing, ⟨1, 1, 1, 1⟩, ⟨1, 1, 1, 1⟩⟩
    [some (OvrLayer.quad ⟨⟨false, false⟩, 0, 0, 1, ⟨0, 0, 50, 50⟩⟩)]
    (fun c => by simp)
  exact ⟨h.1, h.2.1, by simpa [quadLayerCount, isQuadLayer] using h.2.2.1,
    by simpa [quadLayerCount, isQuadLayer] using h.2.2.2.2.2.2⟩

end Revive
